import Mathlib

/-!
# Verification of the PACS TOTEM extraction engine

Shallow embedding of the scraping automation (`login_automation.py`) and of the
service layer that invokes it (`api.py`).  Pure data transformations (row/cell
zipping) are translated directly; the browser environment (which selectors
match, which interactions raise, what the table pages contain) is made an
explicit input `RunEnv`, and Python exceptions are modelled with
`Except String`.

Mapping to the source:
* `dictInsert`, `rowDataAux`, `buildRowData` — the per-row cell loop,
  `login_automation.py` lines 271-283 (`row_data[headers[c]] = cell_text.strip()`).
* `processRow`, `processPage` — the row-retention test `if row_data:` and the
  per-page accumulation, lines 285-289.
* `scroll_and_click` — the helper of the same name, lines 145-173.
* `buttonBlock` — the inline Salvar / Filtrar button blocks, lines 116-139 and
  202-221 (same shape as `scroll_and_click` but the outcome is discarded).
* `runFilterSection` — the five dropdown selections, lines 176-198.
* `scrapeLoop` — the `while has_more_pages` pagination loop, lines 253-372.
* `runBody` / `login_to_pacs` — the orchestrator `login_to_pacs`,
  lines 63-444 (`runBody` is the `try:` block, `login_to_pacs` adds the
  bootstrap steps that precede the `try:` and the `except`/`finally` handling).
* `run_scraping_task`, `scrape_data_sync` — the service layer, `api.py`
  lines 56-95 and 148-210 (environment-variable staging of credentials).

Python's `str.strip` is modelled by `pyStrip` (drop whitespace characters
from both ends; the claims only depend on whitespace-only text stripping to
the empty string).
-/

/-- Characters removed by Python's `str.strip()` from either end: whitespace. -/
def stripChars (l : List Char) : List Char :=
  ((l.dropWhile Char.isWhitespace).reverse.dropWhile Char.isWhitespace).reverse

/-- Python's `str.strip()`: remove leading and trailing whitespace. -/
def pyStrip (s : String) : String :=
  String.mk (stripChars s.data)

/-- Python dict with string keys and values: an insertion-ordered association
list.  Inserting an existing key overwrites its value in place; a new key is
appended at the end. -/
abbrev RowMap := List (String × String)

/-- Python dict assignment `m[k] = v`: overwrite in place when `k` is already a
key, otherwise append `(k, v)`. -/
def dictInsert (m : RowMap) (k v : String) : RowMap :=
  if m.any (fun kv => kv.1 == k) then
    m.map (fun kv => if kv.1 == k then (k, v) else kv)
  else
    m ++ [(k, v)]

/-- Cell loop of `login_automation.py` lines 280-283:
`for c in range(cell_count): if c < len(headers): row_data[headers[c]] = cell_text.strip()`.
The index `c` advances by one per cell; `headers.getD c ""` is Python's
`headers[c]`, which the guard `c < len(headers)` keeps in range. -/
def rowDataAux (headers : List String) : List String → Nat → RowMap → RowMap
  | [], _, acc => acc
  | cell :: rest, c, acc =>
    if c < headers.length then
      rowDataAux headers rest (c + 1) (dictInsert acc (headers.getD c "") (pyStrip cell))
    else
      rowDataAux headers rest (c + 1) acc

/-- Builds `row_data` for one table row from the header labels and the raw cell
texts. -/
def buildRowData (headers cells : List String) : RowMap :=
  rowDataAux headers cells 0 []

/-- Row retention test of line 286 (`if row_data:`): a row is kept exactly when
its dict is non-empty. -/
def processRow (headers cells : List String) : Option RowMap :=
  let rd := buildRowData headers cells
  if rd.isEmpty then none else some rd

/-- Per-page row extraction, lines 268-289: each surviving row is appended to
the page's list in encounter order. -/
def processPage (headers : List String) (rows : List (List String)) : List RowMap :=
  rows.filterMap (fun cells => processRow headers cells)

/-- Environment of one `scroll_and_click` (or inline button) interaction:
`count` is `locator.count()`; `clickOk` is false when the native
scroll/click block (lines 151-153) raises; `evalOk` is false when the
`page.evaluate` fallback itself raises; `jsFound` is the boolean the fallback
script returns (whether `document.querySelector` found the node). -/
structure StepEnv where
  count : Nat
  clickOk : Bool
  evalOk : Bool
  jsFound : Bool
  deriving DecidableEq, Repr

/-- Helper `scroll_and_click` of `login_automation.py` lines 145-173.  A raised
exception is `Except.error`; the returned Python boolean is `Except.ok`. -/
def scroll_and_click (e : StepEnv) : Except String Bool :=
  if 0 < e.count then
    if e.clickOk then Except.ok true
    else Except.error "native click raised"
  else
    if e.evalOk then Except.ok e.jsFound
    else Except.error "evaluate raised"

/-- Inline Salvar / Filtrar button blocks (lines 116-139 and 202-221): same
shape as `scroll_and_click`, but the JavaScript fallback returns no value, so
the block only distinguishes "completed" from "raised". -/
def buttonBlock (e : StepEnv) : Except String Unit :=
  if 0 < e.count then
    if e.clickOk then Except.ok ()
    else Except.error "native click raised"
  else
    if e.evalOk then Except.ok ()
    else Except.error "evaluate raised"

/-- One dropdown filter: the toggle click that opens the widget and the option
click that selects the entry (lines 176-198 perform both per filter). -/
structure FilterStepEnv where
  toggle : StepEnv
  option : StepEnv
  deriving DecidableEq, Repr

/-- Environments of the five dropdown filters, in source order. -/
structure FilterEnvs where
  grupoTotem : FilterStepEnv
  guiche : FilterStepEnv
  tipo : FilterStepEnv
  prioridade : FilterStepEnv
  modalidade : FilterStepEnv
  deriving DecidableEq, Repr

/-- The five filter steps in the order the source applies them. -/
def FilterEnvs.steps (f : FilterEnvs) : List FilterStepEnv :=
  [f.grupoTotem, f.guiche, f.tipo, f.prioridade, f.modalidade]

/-- One filter step, lines such as 176-178: open the dropdown, then click the
option.  Both return values are discarded by the source (`await
scroll_and_click(...)` with no assignment); only a raised exception
propagates. -/
def runFilterStep (f : FilterStepEnv) : Except String Unit :=
  match scroll_and_click f.toggle with
  | Except.error m => Except.error m
  | Except.ok _ =>
    match scroll_and_click f.option with
    | Except.error m => Except.error m
    | Except.ok _ => Except.ok ()

/-- Sequential application of a list of filter steps. -/
def runFilterList : List FilterStepEnv → Except String Unit
  | [] => Except.ok ()
  | f :: rest =>
    match runFilterStep f with
    | Except.error m => Except.error m
    | Except.ok _ => runFilterList rest

/-- The whole filter section, lines 176-198. -/
def runFilterSection (fs : FilterEnvs) : Except String Unit :=
  runFilterList fs.steps

/-- The boolean a `scroll_and_click` call reports to its caller (`False` when
it raised, for the purpose of classifying outcomes).  The source computes
these booleans for the filter section and throws them away; this definition
names what would have been retained. -/
def stepReturnedTrue (e : StepEnv) : Bool :=
  match scroll_and_click e with
  | Except.ok b => b
  | Except.error _ => false

/-- Both halves of the filter step reported success. -/
def filterStepSuccess (f : FilterStepEnv) : Bool :=
  stepReturnedTrue f.toggle && stepReturnedTrue f.option

/-- The per-filter outcome list the spec speaks of (never materialised by the
source). -/
def filterOutcomes (fs : FilterEnvs) : List Bool :=
  fs.steps.map filterStepSuccess

/-- Result of probing the standard pagination selectors (lines 293-297):
either no element matched, or one did and `get_attribute("class")` returned
the given optional class string. -/
inductive NextProbe where
  | absent : NextProbe
  | found : Option String → NextProbe
  deriving DecidableEq, Repr

/-- Result of the JavaScript pagination fallback (lines 333-363), consulted
only when the standard probe found nothing: either no button matched any
selector, or one did and the script's disabled check (class contains
`disabled`/`inactive`, or a `disabled` attribute) evaluated to the given
boolean. -/
inductive JsProbe where
  | noneFound : JsProbe
  | foundBtn : Bool → JsProbe
  deriving DecidableEq, Repr

/-- Occurrence of `pat` as a contiguous sublist, tested at every suffix. -/
def hasSubList (pat : List Char) : List Char → Bool
  | [] => pat.isEmpty
  | c :: t => pat.isPrefixOf (c :: t) || hasSubList pat t

/-- Python's `pat in s` substring test, used on the class attribute. -/
def containsSub (s pat : String) : Bool :=
  hasSubList pat.data s.data

/-- Disabled test of lines 303-304: `is_disabled and ("disabled" in is_disabled
or "inactive" in is_disabled)`.  A `None` class attribute is falsy, so the
button counts as enabled. -/
def stdDisabledClass : Option String → Bool
  | none => false
  | some s => containsSub s "disabled" || containsSub s "inactive"

/-- State of the table and of the pagination controls during one iteration of
the `while has_more_pages` loop: the body rows visible on that page (each row
its effective cell texts), the two pagination probes, and whether the two
possible page-transition blocks complete without raising (`transitionOk` for
the `try:` of lines 308-329, `jsWaitOk` for the unguarded
`wait_for_load_state` of line 367). -/
structure Page where
  rows : List (List String)
  nextStd : NextProbe
  nextJs : JsProbe
  transitionOk : Bool
  jsWaitOk : Bool
  deriving DecidableEq, Repr

/-- Outcome of the pagination loop: the accumulated `all_rows`, the number of
completed loop iterations (ExtractPage cycles), and `fault = some m` when an
exception escaped the loop (only possible from the unguarded wait of the
JavaScript fallback path). -/
structure LoopResult where
  rows : List RowMap
  pagesProcessed : Nat
  fault : Option String
  deriving DecidableEq, Repr

/-- Counts one more completed loop iteration around a recursive call. -/
def LoopResult.bump (r : LoopResult) : LoopResult :=
  { r with pagesProcessed := r.pagesProcessed + 1 }

/-- Pagination loop of lines 253-372.  Each list element is the table state
seen by one iteration.  Standard path: a disabled class terminates; an
exception during the guarded transition `try:` is caught and terminates
(`has_more_pages = False`); otherwise the loop continues.  Fallback path: a
missing or disabled button terminates; an enabled button continues after the
line-367 wait, which is not guarded — if it raises, the exception escapes the
loop (`fault`). -/
def scrapeLoop (headers : List String) : List Page → List RowMap → LoopResult
  | [], acc => { rows := acc, pagesProcessed := 0, fault := none }
  | p :: rest, acc =>
    let acc2 := acc ++ processPage headers p.rows
    match p.nextStd with
    | NextProbe.found cls =>
      if stdDisabledClass cls then
        { rows := acc2, pagesProcessed := 1, fault := none }
      else if p.transitionOk then
        (scrapeLoop headers rest acc2).bump
      else
        { rows := acc2, pagesProcessed := 1, fault := none }
    | NextProbe.absent =>
      match p.nextJs with
      | JsProbe.foundBtn dis =>
        if dis then
          { rows := acc2, pagesProcessed := 1, fault := none }
        else if p.jsWaitOk then
          (scrapeLoop headers rest acc2).bump
        else
          { rows := acc2, pagesProcessed := 1, fault := some "pagination wait raised" }
      | JsProbe.noneFound =>
        { rows := acc2, pagesProcessed := 1, fault := none }

/-- A page whose pagination step advances to a further page (either path). -/
def pageAdvances (p : Page) : Bool :=
  match p.nextStd with
  | NextProbe.found cls => !stdDisabledClass cls && p.transitionOk
  | NextProbe.absent =>
    match p.nextJs with
    | JsProbe.foundBtn dis => !dis && p.jsWaitOk
    | JsProbe.noneFound => false

/-- A page on which pagination terminates normally: no next control at all, or
a control carrying a disabled/inactive marker. -/
def pageTerminal (p : Page) : Bool :=
  match p.nextStd with
  | NextProbe.found cls => stdDisabledClass cls
  | NextProbe.absent =>
    match p.nextJs with
    | JsProbe.foundBtn dis => dis
    | JsProbe.noneFound => true

/-- The structured result dictionary built by `login_to_pacs` (lines 46-51 and
416-435).  Keys the source only sometimes adds (`headers`,
`error_screenshot`) are `Option`; the timestamp and export file names carry no
information the claims depend on and are omitted. -/
structure ExtractionResult where
  status : String
  data : List RowMap
  message : String
  headers : Option (List String)
  errorScreenshot : Option String
  deriving DecidableEq, Repr

/-- Environment determining one full run of `login_to_pacs`: each `Option
String` field is `some m` when the corresponding region of the source raises
an exception with message `m`.

* `bootstrapFault` — browser launch / context / page creation, lines 65-71
  (these precede the `try:`).
* `navFault` — `goto(LOGIN_URL)` and `wait_for_selector`, lines 76-79.
* `username`, `password` — the module-level `USERNAME`/`PASSWORD` read from
  the environment (lines 19-20); `none` models an unset variable.
* `loginFault` — credential fill, submit and the navigation to the Totem
  page, lines 90-112.
* `salvarEnv`, `filterEnvs`, `filtrarEnv` — interaction environments of the
  Salvar block, the filter section and the Filtrar block.
* `headerTexts` — the header cell texts (lines 232-243 trim each).
* `pages` — the successive table states seen by the pagination loop.
* `exportFault` — CSV/JSON/HTML export and final screenshot, lines 377-414.
* `errorScreenshotOk` — whether the diagnostic screenshot in the `except`
  handler succeeds (lines 431-437). -/
structure RunEnv where
  bootstrapFault : Option String
  navFault : Option String
  username : Option String
  password : Option String
  loginFault : Option String
  salvarEnv : StepEnv
  filterEnvs : FilterEnvs
  filtrarEnv : StepEnv
  headerTexts : List String
  pages : List Page
  exportFault : Option String
  errorScreenshotOk : Bool
  deriving DecidableEq, Repr

/-- Python truthiness of the credential check `if not USERNAME or not
PASSWORD` (line 82): both `None` and the empty string are falsy. -/
def truthy : Option String → Bool
  | none => false
  | some s => s != ""

/-- The failure result returned at line 86 when credentials are missing: the
initial dictionary of lines 46-51 with only `message` updated. -/
def credsMissingResult : ExtractionResult :=
  { status := "failed"
    data := []
    message := "Error: Username or password not found in environment variables."
    headers := none
    errorScreenshot := none }

/-- The result built by the `except` handler, lines 425-437: status stays
`failed`, `data` stays `[]`, the message wraps the exception text, and the
diagnostic screenshot is recorded only if capturing it succeeds (its own
failure is swallowed). -/
def caughtResult (env : RunEnv) (m : String) : ExtractionResult :=
  { status := "failed"
    data := []
    message := "An error occurred: " ++ m
    headers := none
    errorScreenshot := if env.errorScreenshotOk then some "error_state.png" else none }

/-- The `try:` block of `login_to_pacs` (lines 73-423): `Except.error m` means
an exception with message `m` reached the `except` handler. -/
def runBody (env : RunEnv) : Except String ExtractionResult :=
  match env.navFault with
  | some m => Except.error m
  | none =>
    if truthy env.username && truthy env.password then
      match env.loginFault with
      | some m => Except.error m
      | none =>
        match buttonBlock env.salvarEnv with
        | Except.error m => Except.error m
        | Except.ok _ =>
          match runFilterSection env.filterEnvs with
          | Except.error m => Except.error m
          | Except.ok _ =>
            match buttonBlock env.filtrarEnv with
            | Except.error m => Except.error m
            | Except.ok _ =>
              match (scrapeLoop (env.headerTexts.map pyStrip) env.pages []).fault with
              | some m => Except.error m
              | none =>
                match env.exportFault with
                | some m => Except.error m
                | none =>
                  Except.ok
                    { status := "success"
                      data := (scrapeLoop (env.headerTexts.map pyStrip) env.pages []).rows
                      message := "Successfully scraped "
                          ++ toString (scrapeLoop (env.headerTexts.map pyStrip) env.pages []).rows.length
                          ++ " rows of data"
                      headers := some (env.headerTexts.map pyStrip)
                      errorScreenshot := none }
    else
      Except.ok credsMissingResult

/-- What a caller of `login_to_pacs` observes: either a returned result
dictionary or an escaped exception, together with whether the `finally:`
`browser.close()` ran. -/
structure RunOutput where
  outcome : Except String ExtractionResult
  browserClosed : Bool
  deriving Repr

/-- Orchestrator `login_to_pacs`, lines 63-444.  Browser launch, context and
page creation (lines 65-71) happen before the `try:`: an exception there
escapes the function and the `finally:` close never runs.  Inside the
`try:`, every exception is caught at line 425 and converted by
`caughtResult`, and the `finally:` closes the browser on return and on
handled failure alike. -/
def login_to_pacs (env : RunEnv) : RunOutput :=
  match env.bootstrapFault with
  | some m => { outcome := Except.error m, browserClosed := false }
  | none =>
    match runBody env with
    | Except.ok r => { outcome := Except.ok r, browserClosed := true }
    | Except.error m => { outcome := Except.ok (caughtResult env m), browserClosed := true }

/-- The process-wide credential staging store: the `j_username` / `j_password`
environment variables of the API process. -/
structure EnvVars where
  j_username : Option String
  j_password : Option String
  deriving DecidableEq, Repr

/-- What the awaited `login_to_pacs(...)` call does from the service layer's
point of view: returns a result dictionary, or raises. -/
inductive CallOutcome where
  | returns : ExtractionResult → CallOutcome
  | raises : String → CallOutcome
  deriving DecidableEq, Repr

/-- Converts a modelled orchestrator run into the call outcome its caller
sees. -/
def outcomeOf (ro : RunOutput) : CallOutcome :=
  match ro.outcome with
  | Except.ok r => CallOutcome.returns r
  | Except.error m => CallOutcome.raises m

/-- Background task `run_scraping_task` of `api.py` lines 56-95: set the two
environment variables, await the automation, then pop both variables and
store the result.  The `except` branch stores a failure record but does not
pop the variables (the `os.environ.pop` calls are inside the `try:`, before
the handler).  Returns the final environment-variable state and the stored
task record. -/
def run_scraping_task (user pw : String) (call : CallOutcome) :
    EnvVars × ExtractionResult :=
  let envSet : EnvVars := { j_username := some user, j_password := some pw }
  match call with
  | CallOutcome.returns r =>
    ({ j_username := none, j_password := none }, r)
  | CallOutcome.raises m =>
    (envSet, { status := "failed", data := [], message := m,
               headers := none, errorScreenshot := none })

/-- Response of the synchronous endpoint: the bare data list on success, or an
HTTP 500 whose body is either the failed result or an ad-hoc error record. -/
inductive SyncResponse where
  | okData : List RowMap → SyncResponse
  | errorResult : Nat → ExtractionResult → SyncResponse
  | errorMsg : Nat → String → SyncResponse
  deriving DecidableEq, Repr

/-- Endpoint `scrape_data_sync` of `api.py` lines 148-210: same
environment-variable staging as `run_scraping_task`, with the same gap — the
`except` branch (lines 201-210) returns a 500 response without popping the
two variables. -/
def scrape_data_sync (user pw : String) (call : CallOutcome) :
    EnvVars × SyncResponse :=
  let envSet : EnvVars := { j_username := some user, j_password := some pw }
  match call with
  | CallOutcome.returns r =>
    ({ j_username := none, j_password := none },
      if r.status == "success" then SyncResponse.okData r.data
      else SyncResponse.errorResult 500 r)
  | CallOutcome.raises m =>
    (envSet, SyncResponse.errorMsg 500 m)

/-! ## Derived predicates and concrete environments -/

/-- Completed-without-raising test for a `Unit`-valued block. -/
def exceptOk : Except String Unit → Bool
  | Except.ok _ => true
  | Except.error _ => false

/-- Runs in which control reaches the table-scraping section: no fault up to
and including the Filtrar click, and credentials present. -/
@[reducible]
def ReachesScraping (env : RunEnv) : Prop :=
  env.bootstrapFault = none ∧ env.navFault = none ∧
  truthy env.username = true ∧ truthy env.password = true ∧
  env.loginFault = none ∧
  exceptOk (buttonBlock env.salvarEnv) = true ∧
  exceptOk (runFilterSection env.filterEnvs) = true ∧
  exceptOk (buttonBlock env.filtrarEnv) = true

/-- An interaction environment in which `scroll_and_click` does not raise: a
resolved element clicks without an exception, an unresolved one falls back to
a script evaluation that completes (returning either boolean). -/
def stepNoRaise (s : StepEnv) : Bool :=
  if 0 < s.count then s.clickOk else s.evalOk

/-- A filter section in which no individual click raises — every failure is a
resolution failure, reported as a returned `False`. -/
@[reducible]
def FilterNoRaise (fs : FilterEnvs) : Prop :=
  ∀ f ∈ fs.steps, stepNoRaise f.toggle = true ∧ stepNoRaise f.option = true

/-- Interaction environment whose element resolves and clicks natively. -/
def okStep : StepEnv :=
  { count := 1, clickOk := true, evalOk := true, jsFound := false }

/-- Interaction environment whose element does not resolve and whose script
fallback completes without finding the node: the step reports `False`. -/
def missStep : StepEnv :=
  { count := 0, clickOk := true, evalOk := true, jsFound := false }

/-- Dropdown filter that resolves and succeeds on both clicks. -/
def okFilter : FilterStepEnv := { toggle := okStep, option := okStep }

/-- Dropdown filter that fails to resolve on both clicks (no raise). -/
def missFilter : FilterStepEnv := { toggle := missStep, option := missStep }

/-- First table page of the baseline run: two rows, an enabled standard next
control, and a transition that does not raise. -/
def firstPage : Page :=
  { rows := [["1"], ["2"]]
    nextStd := NextProbe.found (some "paginate_button next")
    nextJs := JsProbe.noneFound
    transitionOk := true
    jsWaitOk := true }

/-- Last table page of the baseline run: its standard next control carries the
`disabled` marker. -/
def lastPage : Page :=
  { rows := [["7"], [" "]]
    nextStd := NextProbe.found (some "paginate_button next disabled")
    nextJs := JsProbe.noneFound
    transitionOk := true
    jsWaitOk := true }

/-- Page with an enabled standard next control whose guarded transition
(lines 308-329) raises. -/
def stdFailPage : Page :=
  { rows := [["7"], [" "]]
    nextStd := NextProbe.found (some "paginate_button next")
    nextJs := JsProbe.noneFound
    transitionOk := false
    jsWaitOk := true }

/-- Page whose pagination is only reachable through the JavaScript fallback,
with an enabled button and a line-367 wait that raises. -/
def jsFailPage : Page :=
  { rows := [["17"]]
    nextStd := NextProbe.absent
    nextJs := JsProbe.foundBtn false
    transitionOk := true
    jsWaitOk := false }

/-- Baseline benign run: credentials present, every interaction resolves, a
two-page table, exports succeed. -/
def baseEnv : RunEnv :=
  { bootstrapFault := none
    navFault := none
    username := some "operator"
    password := some "secret"
    loginFault := none
    salvarEnv := okStep
    filterEnvs :=
      { grupoTotem := okFilter, guiche := okFilter, tipo := okFilter
        prioridade := okFilter, modalidade := okFilter }
    filtrarEnv := okStep
    headerTexts := ["Senha "]
    pages := [firstPage, lastPage]
    exportFault := none
    errorScreenshotOk := true }

/-- Baseline run in which browser launch raises (before the `try:`). -/
def envBootFail : RunEnv :=
  { baseEnv with bootstrapFault := some "browser launch raised" }

/-- Baseline run with the `j_username` environment variable unset. -/
def envNoCreds : RunEnv := { baseEnv with username := none }

/-- Baseline run in which only the `tipo` filter resolves. -/
def envTipoOnly : RunEnv :=
  { baseEnv with
    filterEnvs :=
      { grupoTotem := missFilter, guiche := missFilter, tipo := okFilter
        prioridade := missFilter, modalidade := missFilter } }

/-- Baseline run in which all five filters fail to resolve. -/
def envAllFilterMiss : RunEnv :=
  { baseEnv with
    filterEnvs :=
      { grupoTotem := missFilter, guiche := missFilter, tipo := missFilter
        prioridade := missFilter, modalidade := missFilter } }

/-- Baseline run whose single table page faults in the JavaScript-fallback
pagination wait. -/
def envJsFail : RunEnv := { baseEnv with pages := [jsFailPage] }

/-- Baseline run whose second page faults in the guarded standard-path
transition. -/
def envStdFail : RunEnv := { baseEnv with pages := [firstPage, stdFailPage] }

/-! ## Row construction lemmas -/

/-- Inserting a key not present in the map appends the pair at the end. -/
lemma dictInsert_of_not_mem (m : RowMap) (k v : String)
    (h : ∀ kv ∈ m, kv.1 ≠ k) : dictInsert m k v = m ++ [(k, v)] := by
  have hany : m.any (fun kv => kv.1 == k) = false := by
    simp only [List.any_eq_false]
    intro kv hkv
    simpa using h kv hkv
  simp [dictInsert, hany]

/-- Dict insertion never produces an empty map. -/
lemma dictInsert_ne_nil (m : RowMap) (k v : String) : dictInsert m k v ≠ [] := by
  unfold dictInsert
  split
  · intro hmap
    rw [List.map_eq_nil_iff] at hmap
    subst hmap
    simp_all
  · simp

/-- The cell loop never shrinks a non-empty accumulator to empty. -/
lemma rowDataAux_ne_nil (H : List String) :
    ∀ (cells : List String) (c : Nat) (acc : RowMap),
      acc ≠ [] → rowDataAux H cells c acc ≠ [] := by
  intro cells
  induction cells with
  | nil => intro c acc hacc; simpa [rowDataAux] using hacc
  | cons cell rest ih =>
    intro c acc hacc
    by_cases hc : c < H.length
    · simp only [rowDataAux, if_pos hc]
      exact ih (c + 1) _ (dictInsert_ne_nil acc _ _)
    · simp only [rowDataAux, if_neg hc]
      exact ih (c + 1) acc hacc

/-- With an empty header list no cell is ever stored. -/
lemma rowDataAux_nil_headers :
    ∀ (cells : List String) (c : Nat) (acc : RowMap),
      rowDataAux [] cells c acc = acc := by
  intro cells
  induction cells with
  | nil => intro c acc; simp [rowDataAux]
  | cons cell rest ih =>
    intro c acc
    simp only [rowDataAux, List.length_nil]
    rw [if_neg (by omega)]
    exact ih (c + 1) acc

/-- An element of a duplicate-free list does not occur before its own
position. -/
lemma not_mem_take_of_nodup (H : List String) (hnd : H.Nodup) (c : Nat)
    (hc : c < H.length) : H.get ⟨c, hc⟩ ∉ H.take c := by
  intro hmem
  have hdrop : H.get ⟨c, hc⟩ ∈ H.drop c := by
    rw [← List.getElem_cons_drop H c hc]
    exact List.mem_cons_self _ _
  have hsplit := List.take_append_drop c H
  rw [← hsplit] at hnd
  exact (List.nodup_append.mp hnd).2.2 hmem hdrop

/-- Core characterisation of the cell loop on duplicate-free headers: starting
at index `c` with the keys of `H.take c` already present, it appends the zip
of the remaining headers with the trimmed cells. -/
lemma rowDataAux_zip (H : List String) (hnd : H.Nodup) :
    ∀ (cells : List String) (c : Nat) (acc : RowMap),
      acc.map Prod.fst = H.take c →
      rowDataAux H cells c acc = acc ++ (H.drop c).zip (cells.map pyStrip) := by
  intro cells
  induction cells with
  | nil => intro c acc hacc; simp [rowDataAux]
  | cons cell rest ih =>
    intro c acc hacc
    by_cases hc : c < H.length
    · simp only [rowDataAux, if_pos hc]
      have hgetD : H.getD c "" = H.get ⟨c, hc⟩ := by
        simp [List.getElem?_eq_getElem hc, List.getD]
      have hnotmem : ∀ kv ∈ acc, kv.1 ≠ H.get ⟨c, hc⟩ := by
        intro kv hkv heq
        have : kv.1 ∈ acc.map Prod.fst := List.mem_map_of_mem Prod.fst hkv
        rw [hacc, heq] at this
        exact not_mem_take_of_nodup H hnd c hc this
      rw [hgetD, dictInsert_of_not_mem acc _ _ hnotmem]
      have hkeys : (acc ++ [(H.get ⟨c, hc⟩, (pyStrip cell))]).map Prod.fst = H.take (c + 1) := by
        rw [List.map_append, hacc, List.take_succ]
        simp [List.getElem?_eq_getElem hc]
      rw [ih (c + 1) _ hkeys]
      have hdrop : H.drop c = H.get ⟨c, hc⟩ :: H.drop (c + 1) :=
        (List.getElem_cons_drop H c hc).symm
      rw [List.map_cons, hdrop, List.zip_cons_cons, List.append_assoc]
      rfl
    · simp only [rowDataAux, if_neg hc]
      have hlen : H.length ≤ c := Nat.le_of_not_lt hc
      have hacc2 : acc.map Prod.fst = H.take (c + 1) := by
        rw [hacc, List.take_of_length_le hlen,
          List.take_of_length_le (Nat.le_succ_of_le hlen)]
      rw [ih (c + 1) acc hacc2, List.drop_eq_nil_of_le hlen,
        List.drop_eq_nil_of_le (Nat.le_succ_of_le hlen)]
      simp

/-- On duplicate-free headers the whole row dict is the positional zip of the
headers with the trimmed cells. -/
lemma buildRowData_eq_zip (H cells : List String) (hnd : H.Nodup) :
    buildRowData H cells = H.zip (cells.map pyStrip) := by
  unfold buildRowData
  rw [rowDataAux_zip H hnd cells 0 [] (by simp)]
  simp

/-- First components of a zip are the first elements of the left list. -/
lemma zip_map_fst_take (l₁ : List String) (l₂ : List String) :
    (l₁.zip l₂).map Prod.fst = l₁.take l₂.length := by
  induction l₁ generalizing l₂ with
  | nil => simp
  | cons a as ih =>
    cases l₂ with
    | nil => simp
    | cons b bs => simp [List.zip_cons_cons, ih bs]

/-- Second components of a zip are the first elements of the right list. -/
lemma zip_map_snd_take (l₁ : List String) (l₂ : List String) :
    (l₁.zip l₂).map Prod.snd = l₂.take l₁.length := by
  induction l₁ generalizing l₂ with
  | nil => simp
  | cons a as ih =>
    cases l₂ with
    | nil => simp
    | cons b bs => simp [List.zip_cons_cons, ih bs]

/-! ## C1 — row retention -/

/-- C1 (counterexample): the claim says a row whose every cell is
whitespace-only is excluded from the result.  On the source, headers `["A"]`
and the single whitespace cell `"  "` produce the non-empty dict
`{"A": ""}`, which passes the `if row_data:` test — the row is retained, not
excluded. -/
theorem c1_whitespace_row_counterexample :
    pyStrip "  " = "" ∧ processRow ["A"] ["  "] = some [("A", "")] :=
  ⟨rfl, rfl⟩

/-- C1 (amended): a scraped row contributes to the result iff it has at least
one populated field, i.e. iff it has at least one cell and the header list is
non-empty; the text content of the cells plays no role, so a row whose cells
are all whitespace is retained (with empty-string values) whenever it has a
populated field. -/
theorem c1_row_retention_amended (H cells : List String) :
    (processRow H cells).isSome = (!cells.isEmpty && !H.isEmpty) := by
  cases cells with
  | nil => simp [processRow, buildRowData, rowDataAux]
  | cons cell rest =>
    cases H with
    | nil =>
      simp [processRow, buildRowData, rowDataAux_nil_headers]
    | cons h hs =>
      have hne : buildRowData (h :: hs) (cell :: rest) ≠ [] := by
        unfold buildRowData
        simp only [rowDataAux, List.length_cons, if_pos (Nat.succ_pos hs.length)]
        exact rowDataAux_ne_nil _ rest 1 _ (dictInsert_ne_nil [] _ _)
      simp [processRow, List.isEmpty_iff, hne]

/-! ## C5 — positional zipping of cells against headers -/

/-- C5 (confirmed): for a well-formed header list `H` of `n` distinct column
labels and a row of `m` cells: when `m ≥ n` the row dict binds every column of
`H`, in order, to the corresponding trimmed cell of the first `n` cells (cells
beyond `n` are dropped); when `m < n` the dict has exactly `m` entries, one
per leading column, and the remaining `n - m` columns are entirely absent —
never present with a placeholder value. -/
theorem c5_row_zip (H cells : List String) (hnd : H.Nodup) :
    (H.length ≤ cells.length →
      (buildRowData H cells).map Prod.fst = H ∧
      (buildRowData H cells).map Prod.snd = (cells.take H.length).map pyStrip) ∧
    (cells.length < H.length →
      (buildRowData H cells).length = cells.length ∧
      (buildRowData H cells).map Prod.fst = H.take cells.length ∧
      ∀ h ∈ H.drop cells.length, ∀ kv ∈ buildRowData H cells, kv.1 ≠ h) := by
  rw [buildRowData_eq_zip H cells hnd]
  constructor
  · intro hle
    constructor
    · rw [zip_map_fst_take, List.length_map]
      exact List.take_of_length_le hle
    · rw [zip_map_snd_take, List.map_take]
  · intro hlt
    refine ⟨?_, ?_, ?_⟩
    · rw [List.length_zip, List.length_map]
      omega
    · rw [zip_map_fst_take, List.length_map]
    · intro h hmem kv hkv heq
      have hfst : kv.1 ∈ (H.zip (cells.map pyStrip)).map Prod.fst :=
        List.mem_map_of_mem Prod.fst hkv
      rw [zip_map_fst_take, List.length_map] at hfst
      have hsplit := List.take_append_drop cells.length H
      rw [← hsplit] at hnd
      exact (List.nodup_append.mp hnd).2.2 (heq ▸ hfst) hmem

/-- C5 witness: concrete instantiation with headers `["A", "B", "C"]`, first
with three cells, then (separately derivable from the same theorem) the
two-cell deficit case. -/
theorem c5_row_zip_witness :
    (["A", "B", "C"] : List String).Nodup ∧
    ((["A", "B", "C"] : List String).length ≤ (["x ", " y", "z", "w"] : List String).length →
      (buildRowData ["A", "B", "C"] ["x ", " y", "z", "w"]).map Prod.fst = ["A", "B", "C"] ∧
      (buildRowData ["A", "B", "C"] ["x ", " y", "z", "w"]).map Prod.snd =
        ((["x ", " y", "z", "w"] : List String).take 3).map pyStrip) ∧
    ((["x ", " y", "z", "w"] : List String).length < (["A", "B", "C"] : List String).length →
      (buildRowData ["A", "B", "C"] ["x ", " y", "z", "w"]).length = 4 ∧
      (buildRowData ["A", "B", "C"] ["x ", " y", "z", "w"]).map Prod.fst =
        (["A", "B", "C"] : List String).take 4 ∧
      ∀ h ∈ (["A", "B", "C"] : List String).drop 4,
        ∀ kv ∈ buildRowData ["A", "B", "C"] ["x ", " y", "z", "w"], kv.1 ≠ h) :=
  ⟨by decide, c5_row_zip ["A", "B", "C"] ["x ", " y", "z", "w"] (by decide)⟩

/-! ## Pagination loop lemmas -/

/-- A page that advances on the standard path has an enabled control and a
transition that does not raise. -/
lemma pageAdvances_found {p : Page} {cls : Option String}
    (hstd : p.nextStd = NextProbe.found cls) (hadv : pageAdvances p = true) :
    stdDisabledClass cls = false ∧ p.transitionOk = true := by
  simp [pageAdvances, hstd, Bool.and_eq_true] at hadv
  exact ⟨by simpa using hadv.1, hadv.2⟩

/-- A page that advances on the fallback path has an enabled button and a wait
that does not raise. -/
lemma pageAdvances_js {p : Page} {dis : Bool}
    (hstd : p.nextStd = NextProbe.absent) (hjs : p.nextJs = JsProbe.foundBtn dis)
    (hadv : pageAdvances p = true) :
    dis = false ∧ p.jsWaitOk = true := by
  simp [pageAdvances, hstd, hjs, Bool.and_eq_true] at hadv
  exact ⟨by simpa using hadv.1, hadv.2⟩

/-- Full traversal: when every page but the last advances and the last is
terminal, the loop performs exactly one iteration per page, accumulates every
page's surviving rows in order, and finishes without an escaping fault. -/
lemma scrapeLoop_complete (H : List String) :
    ∀ (ps : List Page) (p : Page) (acc : List RowMap),
      (∀ q ∈ ps, pageAdvances q = true) → pageTerminal p = true →
      scrapeLoop H (ps ++ [p]) acc =
        { rows := acc ++ ((ps ++ [p]).map (fun q => processPage H q.rows)).flatten,
          pagesProcessed := ps.length + 1,
          fault := none } := by
  intro ps
  induction ps with
  | nil =>
    intro p acc _ hterm
    cases hstd : p.nextStd with
    | found cls =>
      have hdis : stdDisabledClass cls = true := by
        simpa [pageTerminal, hstd] using hterm
      simp [scrapeLoop, hstd, hdis]
    | absent =>
      cases hjs : p.nextJs with
      | foundBtn dis =>
        have hdis : dis = true := by
          simpa [pageTerminal, hstd, hjs] using hterm
        simp [scrapeLoop, hstd, hjs, hdis]
      | noneFound =>
        simp [scrapeLoop, hstd, hjs]
  | cons q ps2 ih =>
    intro p acc hadv hterm
    have hq : pageAdvances q = true := hadv q (List.mem_cons_self q ps2)
    have hrest : ∀ r ∈ ps2, pageAdvances r = true := by
      intro r hr
      exact hadv r (List.mem_cons_of_mem q hr)
    cases hstd : q.nextStd with
    | found cls =>
      obtain ⟨hdis, htr⟩ := pageAdvances_found hstd hq
      have hloop := ih p (acc ++ processPage H q.rows) hrest hterm
      simp [scrapeLoop, hstd, hdis, htr, hloop, LoopResult.bump, List.append_assoc]
    | absent =>
      cases hjs : q.nextJs with
      | foundBtn dis =>
        obtain ⟨hdis, hwait⟩ := pageAdvances_js hstd hjs hq
        subst hdis
        have hloop := ih p (acc ++ processPage H q.rows) hrest hterm
        simp [scrapeLoop, hstd, hjs, hwait, hloop, LoopResult.bump, List.append_assoc]
      | noneFound =>
        simp [pageAdvances, hstd, hjs] at hq

/-- Standard-path transition failure: when the pages before the faulting page
advance and the faulting page's standard next control is enabled but its
guarded transition raises, the loop stops right after that page with all rows
collected so far and no escaping fault. -/
lemma scrapeLoop_stdFail (H : List String) :
    ∀ (ps : List Page) (p : Page) (cls : Option String) (rest : List Page)
      (acc : List RowMap),
      (∀ q ∈ ps, pageAdvances q = true) →
      p.nextStd = NextProbe.found cls → stdDisabledClass cls = false →
      p.transitionOk = false →
      scrapeLoop H (ps ++ p :: rest) acc =
        { rows := acc ++ ((ps ++ [p]).map (fun q => processPage H q.rows)).flatten,
          pagesProcessed := ps.length + 1,
          fault := none } := by
  intro ps
  induction ps with
  | nil =>
    intro p cls rest acc _ hstd hdis htr
    simp [scrapeLoop, hstd, hdis, htr]
  | cons q ps2 ih =>
    intro p cls rest acc hadv hstd hdis htr
    have hq : pageAdvances q = true := hadv q (List.mem_cons_self q ps2)
    have hrest : ∀ r ∈ ps2, pageAdvances r = true := by
      intro r hr
      exact hadv r (List.mem_cons_of_mem q hr)
    cases hstdq : q.nextStd with
    | found clsq =>
      obtain ⟨hdisq, htrq⟩ := pageAdvances_found hstdq hq
      have hloop := ih p cls rest (acc ++ processPage H q.rows) hrest hstd hdis htr
      simp [scrapeLoop, hstdq, hdisq, htrq, hloop, LoopResult.bump, List.append_assoc]
    | absent =>
      cases hjs : q.nextJs with
      | foundBtn dis =>
        obtain ⟨hdisq, hwait⟩ := pageAdvances_js hstdq hjs hq
        subst hdisq
        have hloop := ih p cls rest (acc ++ processPage H q.rows) hrest hstd hdis htr
        simp [scrapeLoop, hstdq, hjs, hwait, hloop, LoopResult.bump, List.append_assoc]
      | noneFound =>
        simp [pageAdvances, hstdq, hjs] at hq

/-- Order preservation, in full generality: whatever stops the loop, the rows
it reports are the starting accumulator followed by the surviving rows of the
visited pages, page by page, in encounter order. -/
lemma scrapeLoop_rows_take (H : List String) :
    ∀ (pages : List Page) (acc : List RowMap),
      (scrapeLoop H pages acc).rows =
        acc ++ ((pages.take (scrapeLoop H pages acc).pagesProcessed).map
          (fun q => processPage H q.rows)).flatten := by
  intro pages
  induction pages with
  | nil => intro acc; simp [scrapeLoop]
  | cons p rest ih =>
    intro acc
    cases hstd : p.nextStd with
    | found cls =>
      by_cases hdis : stdDisabledClass cls = true
      · simp [scrapeLoop, hstd, hdis]
      · by_cases htr : p.transitionOk = true
        · have hin := ih (acc ++ processPage H p.rows)
          simp [scrapeLoop, hstd, hdis, htr, LoopResult.bump, hin, List.append_assoc]
        · simp [scrapeLoop, hstd, hdis, htr]
    | absent =>
      cases hjs : p.nextJs with
      | foundBtn dis =>
        by_cases hd : dis = true
        · simp [scrapeLoop, hstd, hjs, hd]
        · by_cases hwait : p.jsWaitOk = true
          · have hin := ih (acc ++ processPage H p.rows)
            simp [scrapeLoop, hstd, hjs, hd, hwait, LoopResult.bump, hin,
              List.append_assoc]
          · simp [scrapeLoop, hstd, hjs, hd, hwait]
      | noneFound =>
        simp [scrapeLoop, hstd, hjs]

/-! ## Orchestrator lemmas -/

/-- A completed block is exactly `Except.ok ()`. -/
lemma exceptOk_eq {x : Except String Unit} (h : exceptOk x = true) :
    x = Except.ok () := by
  cases x with
  | ok u => cases u; rfl
  | error m => simp [exceptOk] at h

/-- On a run that reaches scraping, completes the loop without an escaping
fault and exports without raising, the orchestrator returns the success
result built from the loop's rows, and closes the browser. -/
lemma login_success_eq (env : RunEnv) (h : ReachesScraping env)
    (he : env.exportFault = none)
    (hf : (scrapeLoop (env.headerTexts.map pyStrip) env.pages []).fault = none) :
    login_to_pacs env =
      { outcome := Except.ok
          { status := "success"
            data := (scrapeLoop (env.headerTexts.map pyStrip) env.pages []).rows
            message := "Successfully scraped "
              ++ toString (scrapeLoop (env.headerTexts.map pyStrip) env.pages []).rows.length
              ++ " rows of data"
            headers := some (env.headerTexts.map pyStrip)
            errorScreenshot := none }
        browserClosed := true } := by
  obtain ⟨hboot, hnav, hu, hp, hlog, hsal, hfil, hftr⟩ := h
  unfold login_to_pacs runBody
  rw [hboot, hnav, hu, hp, hlog, exceptOk_eq hsal, exceptOk_eq hfil, exceptOk_eq hftr]
  simp [hf, he]

/-! ## C6 — pagination termination -/

/-- C6 (confirmed): for a finite sequence of table pages whose last page's
next control is absent or carries a disabled/inactive marker (and whose
earlier pages each advance), the pagination loop performs exactly one
ExtractPage cycle per page and returns normally with the accumulated rows —
it never loops past the terminal page. -/
theorem c6_pagination_terminates (H : List String) (ps : List Page) (p : Page)
    (hadv : ∀ q ∈ ps, pageAdvances q = true) (hterm : pageTerminal p = true) :
    scrapeLoop H (ps ++ [p]) [] =
      { rows := ((ps ++ [p]).map (fun q => processPage H q.rows)).flatten
        pagesProcessed := (ps ++ [p]).length
        fault := none } := by
  rw [scrapeLoop_complete H ps p [] hadv hterm]
  simp

/-- C6 witness: the baseline two-page table (enabled control on page one,
`disabled` marker on page two) yields exactly two cycles. -/
theorem c6_pagination_terminates_witness :
    (∀ q ∈ [firstPage], pageAdvances q = true) ∧ pageTerminal lastPage = true ∧
    scrapeLoop ["Senha"] ([firstPage] ++ [lastPage]) [] =
      { rows := (([firstPage] ++ [lastPage]).map
          (fun q => processPage ["Senha"] q.rows)).flatten
        pagesProcessed := ([firstPage] ++ [lastPage]).length
        fault := none } :=
  ⟨by decide, by decide,
    c6_pagination_terminates ["Senha"] [firstPage] lastPage (by decide) (by decide)⟩

/-! ## C7 — transition failure keeps partial rows -/

/-- C7 (counterexample): the claim says any exception during the next-page
click or the subsequent wait keeps the rows already extracted.  On the
source's JavaScript-fallback path the post-click `wait_for_load_state`
(line 367) sits outside any local `try:`: in a run whose single page yields
one row and then faults in that wait, the exception escapes the loop, the
orchestrator's handler answers with `status = "failed"` and `data = []` — the
extracted row is discarded, not returned. -/
theorem c7_js_path_rows_discarded_counterexample :
    processPage (envJsFail.headerTexts.map pyStrip) jsFailPage.rows
      = [[("Senha", "17")]] ∧
    (login_to_pacs envJsFail).outcome = Except.ok
      { status := "failed"
        data := []
        message := "An error occurred: pagination wait raised"
        headers := none
        errorScreenshot := some "error_state.png" } :=
  ⟨rfl, rfl⟩

/-- C7 (amended): when the transition that raises is on the standard
pagination-control path (the guarded `try:` of lines 308-329), the claim
holds: pagination terminates right after the faulting page instead of
retrying or resuming, and all rows accumulated from the pages extracted so
far are returned in a success result.  On the JavaScript-fallback path, an
exception during the subsequent wait instead escapes to the orchestrator
boundary and the accumulated rows are discarded (the result's data list is
empty). -/
theorem c7_std_transition_failure_amended (env : RunEnv) (ps : List Page)
    (p : Page) (cls : Option String) (rest : List Page)
    (h : ReachesScraping env) (he : env.exportFault = none)
    (hpages : env.pages = ps ++ p :: rest)
    (hadv : ∀ q ∈ ps, pageAdvances q = true)
    (hstd : p.nextStd = NextProbe.found cls)
    (hdis : stdDisabledClass cls = false)
    (htr : p.transitionOk = false) :
    scrapeLoop (env.headerTexts.map pyStrip) env.pages [] =
      { rows := ((ps ++ [p]).map
          (fun q => processPage (env.headerTexts.map pyStrip) q.rows)).flatten
        pagesProcessed := ps.length + 1
        fault := none } ∧
    ∃ r, (login_to_pacs env).outcome = Except.ok r ∧ r.status = "success" ∧
      r.data = ((ps ++ [p]).map
        (fun q => processPage (env.headerTexts.map pyStrip) q.rows)).flatten := by
  have hloop := scrapeLoop_stdFail (env.headerTexts.map pyStrip) ps p cls rest []
    hadv hstd hdis htr
  have hl2 : scrapeLoop (env.headerTexts.map pyStrip) env.pages [] =
      { rows := ((ps ++ [p]).map
          (fun q => processPage (env.headerTexts.map pyStrip) q.rows)).flatten
        pagesProcessed := ps.length + 1
        fault := none } := by
    rw [hpages, hloop]
    simp
  refine ⟨hl2, ?_⟩
  have hf : (scrapeLoop (env.headerTexts.map pyStrip) env.pages []).fault = none := by
    rw [hl2]
  have hres := login_success_eq env h he hf
  refine ⟨{ status := "success"
            data := (scrapeLoop (env.headerTexts.map pyStrip) env.pages []).rows
            message := "Successfully scraped "
              ++ toString (scrapeLoop (env.headerTexts.map pyStrip) env.pages []).rows.length
              ++ " rows of data"
            headers := some (env.headerTexts.map pyStrip)
            errorScreenshot := none }, ?_, rfl, ?_⟩
  · rw [hres]
  · rw [hl2]

/-- C7 witness: baseline run whose second page has an enabled standard control
but a raising transition; the two extracted pages' rows are returned. -/
theorem c7_std_transition_failure_witness :
    ReachesScraping envStdFail ∧ envStdFail.exportFault = none ∧
    envStdFail.pages = [firstPage] ++ stdFailPage :: [] ∧
    (∀ q ∈ [firstPage], pageAdvances q = true) ∧
    stdFailPage.nextStd = NextProbe.found (some "paginate_button next") ∧
    stdDisabledClass (some "paginate_button next") = false ∧
    stdFailPage.transitionOk = false ∧
    (scrapeLoop (envStdFail.headerTexts.map pyStrip) envStdFail.pages [] =
      { rows := (([firstPage] ++ [stdFailPage]).map
          (fun (q : Page) =>
            processPage (envStdFail.headerTexts.map pyStrip) q.rows)).flatten
        pagesProcessed := [firstPage].length + 1
        fault := none } ∧
      ∃ r, (login_to_pacs envStdFail).outcome = Except.ok r ∧
        r.status = "success" ∧
        r.data = (([firstPage] ++ [stdFailPage]).map
          (fun (q : Page) =>
            processPage (envStdFail.headerTexts.map pyStrip) q.rows)).flatten) :=
  ⟨by decide, rfl, rfl, by decide, rfl, by decide, rfl,
    c7_std_transition_failure_amended envStdFail [firstPage] stdFailPage
      (some "paginate_button next") [] (by decide) rfl rfl (by decide) rfl
      (by decide) rfl⟩

/-! ## C8 — row order preservation -/

/-- C8 (confirmed): on every extraction whose scraping loop completes without
an escaping fault (and whose exports succeed), the returned data list is the
concatenation, page by page in visit order, of each visited page's surviving
rows in encounter order — pages are neither reordered nor are rows
deduplicated (the loop appends, never inserts or filters across pages). -/
theorem c8_row_order (env : RunEnv) (h : ReachesScraping env)
    (he : env.exportFault = none)
    (hf : (scrapeLoop (env.headerTexts.map pyStrip) env.pages []).fault = none) :
    ∃ r, (login_to_pacs env).outcome = Except.ok r ∧
      r.data = ((env.pages.take
          (scrapeLoop (env.headerTexts.map pyStrip) env.pages []).pagesProcessed).map
        (fun q => processPage (env.headerTexts.map pyStrip) q.rows)).flatten := by
  have hres := login_success_eq env h he hf
  refine ⟨{ status := "success"
            data := (scrapeLoop (env.headerTexts.map pyStrip) env.pages []).rows
            message := "Successfully scraped "
              ++ toString (scrapeLoop (env.headerTexts.map pyStrip) env.pages []).rows.length
              ++ " rows of data"
            headers := some (env.headerTexts.map pyStrip)
            errorScreenshot := none }, ?_, ?_⟩
  · rw [hres]
  · simpa using scrapeLoop_rows_take (env.headerTexts.map pyStrip) env.pages []

/-- C8 witness: the baseline two-page run returns page one's rows before page
two's, each page's rows in encounter order. -/
theorem c8_row_order_witness :
    ReachesScraping baseEnv ∧ baseEnv.exportFault = none ∧
    (scrapeLoop (baseEnv.headerTexts.map pyStrip) baseEnv.pages []).fault = none ∧
    ∃ r, (login_to_pacs baseEnv).outcome = Except.ok r ∧
      r.data = ((baseEnv.pages.take
          (scrapeLoop (baseEnv.headerTexts.map pyStrip) baseEnv.pages []).pagesProcessed).map
        (fun q => processPage (baseEnv.headerTexts.map pyStrip) q.rows)).flatten :=
  ⟨by decide, rfl, rfl, c8_row_order baseEnv (by decide) rfl rfl⟩

/-! ## Filter section lemmas -/

/-- A step that does not raise reports a boolean. -/
lemma scroll_and_click_ok_of_noRaise (s : StepEnv) (h : stepNoRaise s = true) :
    ∃ b, scroll_and_click s = Except.ok b := by
  unfold stepNoRaise at h
  unfold scroll_and_click
  by_cases hc : 0 < s.count
  · rw [if_pos hc] at h
    simp [hc, h]
  · rw [if_neg hc] at h
    simp [hc, h]

/-- A filter step whose two clicks do not raise completes. -/
lemma runFilterStep_ok (f : FilterStepEnv) (ht : stepNoRaise f.toggle = true)
    (ho : stepNoRaise f.option = true) : runFilterStep f = Except.ok () := by
  obtain ⟨b1, h1⟩ := scroll_and_click_ok_of_noRaise f.toggle ht
  obtain ⟨b2, h2⟩ := scroll_and_click_ok_of_noRaise f.option ho
  simp [runFilterStep, h1, h2]

/-- A filter section with only resolution failures completes: no failure
aborts the remaining filters. -/
lemma runFilterSection_ok (fs : FilterEnvs) (h : FilterNoRaise fs) :
    runFilterSection fs = Except.ok () := by
  have h1 := h fs.grupoTotem (by simp [FilterEnvs.steps])
  have h2 := h fs.guiche (by simp [FilterEnvs.steps])
  have h3 := h fs.tipo (by simp [FilterEnvs.steps])
  have h4 := h fs.prioridade (by simp [FilterEnvs.steps])
  have h5 := h fs.modalidade (by simp [FilterEnvs.steps])
  simp [runFilterSection, FilterEnvs.steps, runFilterList,
    runFilterStep_ok _ h1.1 h1.2, runFilterStep_ok _ h2.1 h2.2,
    runFilterStep_ok _ h3.1 h3.2, runFilterStep_ok _ h4.1 h4.2,
    runFilterStep_ok _ h5.1 h5.2]

/-! ## C3 — filter independence, outcomes discarded -/

/-- C3 (counterexample): the claim says the five per-filter outcomes are
retained and reflected in the run's final diagnostic message.  Two concrete
runs — one where exactly the `tipo` filter resolves and succeeds, one where
all five fail to resolve — produce byte-identical final results, message
included: the source discards every `scroll_and_click` return value, so no
per-filter outcome reaches the result. -/
theorem c3_outcomes_not_reflected_counterexample :
    filterOutcomes envTipoOnly.filterEnvs = [false, false, true, false, false] ∧
    filterOutcomes envAllFilterMiss.filterEnvs = [false, false, false, false, false] ∧
    login_to_pacs envTipoOnly = login_to_pacs envAllFilterMiss ∧
    (login_to_pacs envTipoOnly).outcome = Except.ok
      { status := "success"
        data := [[("Senha", "1")], [("Senha", "2")], [("Senha", "7")], [("Senha", "")]]
        message := "Successfully scraped 4 rows of data"
        headers := some ["Senha"]
        errorScreenshot := none } :=
  ⟨rfl, rfl, rfl, rfl⟩

/-- C3 (amended): filter application is independent per field — a resolution
failure on any dropdown does not abort the remaining filters or the run
(every no-raise filter section completes and execution proceeds to table
scraping) — but the per-filter outcomes are discarded rather than retained:
the run's final result, its diagnostic message included, is the same whatever
the five outcomes were. -/
theorem c3_filter_independence_amended (env : RunEnv) (fe1 fe2 : FilterEnvs)
    (h1 : FilterNoRaise fe1) (h2 : FilterNoRaise fe2) :
    runFilterSection fe1 = Except.ok () ∧
    runFilterSection fe2 = Except.ok () ∧
    login_to_pacs { env with filterEnvs := fe1 } =
      login_to_pacs { env with filterEnvs := fe2 } := by
  have hs1 := runFilterSection_ok fe1 h1
  have hs2 := runFilterSection_ok fe2 h2
  refine ⟨hs1, hs2, ?_⟩
  unfold login_to_pacs runBody caughtResult
  simp [hs1, hs2]

/-- C3 witness: the amended statement at the two concrete filter
environments of the counterexample. -/
theorem c3_filter_independence_witness :
    FilterNoRaise envTipoOnly.filterEnvs ∧
    FilterNoRaise envAllFilterMiss.filterEnvs ∧
    (runFilterSection envTipoOnly.filterEnvs = Except.ok () ∧
      runFilterSection envAllFilterMiss.filterEnvs = Except.ok () ∧
      login_to_pacs { baseEnv with filterEnvs := envTipoOnly.filterEnvs } =
        login_to_pacs { baseEnv with filterEnvs := envAllFilterMiss.filterEnvs }) :=
  ⟨by decide, by decide,
    c3_filter_independence_amended baseEnv envTipoOnly.filterEnvs
      envAllFilterMiss.filterEnvs (by decide) (by decide)⟩

/-! ## C4 — interaction steps and raised exceptions -/

/-- C4 (counterexample): the claim says no interaction step can by itself
raise an exception that escapes it.  When the element resolves
(`count = 1`) but the native scroll/click interaction fails,
`scroll_and_click` raises — the fallback is attempted only on resolution
failure, so the exception escapes the step to the orchestrator boundary. -/
theorem c4_interaction_raises_counterexample :
    scroll_and_click { count := 1, clickOk := false, evalOk := true, jsFound := false }
      = Except.error "native click raised" :=
  rfl

/-- C4 (amended): when the element fails to resolve and the inline-script
fallback evaluation completes, the step returns the fallback's boolean —
`False` when the script also failed to find the node — and never raises; but
when the element resolves and the native interaction itself raises (or when
the fallback evaluation raises), the exception escapes the interaction step,
so a step can turn into an error handled only at the orchestrator boundary. -/
theorem c4_resolution_failure_amended (e : StepEnv) (hc : e.count = 0)
    (he : e.evalOk = true) :
    scroll_and_click e = Except.ok e.jsFound := by
  simp [scroll_and_click, hc, he]

/-- C4 witness: the both-paths-fail environment returns `False` without
raising. -/
theorem c4_resolution_failure_witness :
    missStep.count = 0 ∧ missStep.evalOk = true ∧
    scroll_and_click missStep = Except.ok missStep.jsFound :=
  ⟨rfl, rfl, c4_resolution_failure_amended missStep rfl rfl⟩

/-! ## Orchestrator boundary lemmas -/

/-- The handler's wrapped message is never empty. -/
lemma error_message_ne_empty (m : String) : "An error occurred: " ++ m ≠ "" := by
  intro hmsg
  have hlen := congrArg String.length hmsg
  rw [String.length_append] at hlen
  have h19 : ("An error occurred: " : String).length = 19 := rfl
  have h0 : ("" : String).length = 0 := rfl
  omega

/-- Every result the `try:` block returns is either the success result or the
missing-credentials failure, and in the latter case its message is
non-empty. -/
lemma runBody_ok_shape (env : RunEnv) (r : ExtractionResult)
    (hb : runBody env = Except.ok r) :
    r.status = "success" ∨ (r.status = "failed" ∧ r.message ≠ "") := by
  unfold runBody at hb
  split at hb
  · simp at hb
  · split at hb
    · split at hb
      · simp at hb
      · split at hb
        · simp at hb
        · split at hb
          · simp at hb
          · split at hb
            · simp at hb
            · split at hb <;> try split at hb
              all_goals
                first
                  | (simp only [Except.ok.injEq] at hb
                     subst hb
                     left
                     rfl)
                  | simp at hb
    · simp only [Except.ok.injEq] at hb
      subst hb
      right
      exact ⟨rfl, by decide⟩

/-! ## C9 — orchestrator boundary -/

/-- C9 (counterexample): the claim says any exception raised at any step of a
run is caught at the orchestrator boundary and the browser session is closed
on every exit path.  Browser launch, context and page creation (lines 65-71)
precede the `try:`: a run whose browser launch raises escapes
`login_to_pacs` as an exception, and the `finally:` close never runs. -/
theorem c9_bootstrap_escape_counterexample :
    (login_to_pacs envBootFail).outcome = Except.error "browser launch raised" ∧
    (login_to_pacs envBootFail).browserClosed = false :=
  ⟨rfl, rfl⟩

/-- C9 (amended): once the `try:` block is entered (session bootstrap — browser
launch, context and page creation — succeeded), no exception escapes to the
caller, the browser is closed on every exit path, and every exception raised
at any later step (`runBody env = Except.error m`) is caught at the
orchestrator boundary and converted into a returned ExtractionResult with
status `failed`, the non-empty wrapped message, an empty data list, and the
best-effort diagnostic screenshot recorded exactly when capturing it
succeeds (its failure is non-fatal — the result is returned either way); an
exception raised during session bootstrap itself, before the `try:`, instead
escapes to the caller without the orchestrator's close running. -/
theorem c9_boundary_amended (env : RunEnv) (h : env.bootstrapFault = none) :
    (login_to_pacs env).browserClosed = true ∧
    (∃ r, (login_to_pacs env).outcome = Except.ok r) ∧
    (∀ m, runBody env = Except.error m →
      (login_to_pacs env).outcome = Except.ok (caughtResult env m) ∧
      (caughtResult env m).status = "failed" ∧
      (caughtResult env m).message = "An error occurred: " ++ m ∧
      (caughtResult env m).message ≠ "" ∧
      (caughtResult env m).data = [] ∧
      ((caughtResult env m).errorScreenshot ≠ none ↔ env.errorScreenshotOk = true)) := by
  have hsplit : login_to_pacs env =
      match runBody env with
      | Except.ok r => { outcome := Except.ok r, browserClosed := true }
      | Except.error m =>
        { outcome := Except.ok (caughtResult env m), browserClosed := true } := by
    unfold login_to_pacs
    rw [h]
  refine ⟨?_, ?_, ?_⟩
  · rw [hsplit]
    cases runBody env <;> rfl
  · rw [hsplit]
    cases hb : runBody env with
    | ok r => exact ⟨r, rfl⟩
    | error m => exact ⟨caughtResult env m, rfl⟩
  · intro m hm
    rw [hsplit, hm]
    refine ⟨rfl, rfl, rfl, error_message_ne_empty m, rfl, ?_⟩
    unfold caughtResult
    cases hscr : env.errorScreenshotOk <;> simp [hscr]

/-- C9 witness: the amended boundary property at a run that raises inside the
protected section (the unguarded pagination wait of `envJsFail`): the
exception is converted into the failed result with the wrapped message and
empty data, and the browser is closed. -/
theorem c9_boundary_witness :
    envJsFail.bootstrapFault = none ∧
    runBody envJsFail = Except.error "pagination wait raised" ∧
    (login_to_pacs envJsFail).outcome =
      Except.ok (caughtResult envJsFail "pagination wait raised") ∧
    (caughtResult envJsFail "pagination wait raised").status = "failed" ∧
    (caughtResult envJsFail "pagination wait raised").data = [] ∧
    ((login_to_pacs envJsFail).browserClosed = true ∧
      (∃ r, (login_to_pacs envJsFail).outcome = Except.ok r) ∧
      (∀ m, runBody envJsFail = Except.error m →
        (login_to_pacs envJsFail).outcome = Except.ok (caughtResult envJsFail m) ∧
        (caughtResult envJsFail m).status = "failed" ∧
        (caughtResult envJsFail m).message = "An error occurred: " ++ m ∧
        (caughtResult envJsFail m).message ≠ "" ∧
        (caughtResult envJsFail m).data = [] ∧
        ((caughtResult envJsFail m).errorScreenshot ≠ none ↔
          envJsFail.errorScreenshotOk = true))) :=
  ⟨rfl, rfl,
    ((c9_boundary_amended envJsFail rfl).2.2 "pagination wait raised" rfl).1,
    rfl, rfl, c9_boundary_amended envJsFail rfl⟩

/-! ## C10 — missing credentials -/

/-- C10 (confirmed): when the login form has been reached (navigation and the
wait for the credential input raised nothing) and the username or the
password is unset or empty, the run returns the fixed missing-credentials
result — status `failed`, empty data list, non-empty message naming the
credentials — regardless of every later environment component, so no form
filling, submission or scraping takes place; the browser is still closed. -/
theorem c10_missing_credentials (env : RunEnv)
    (hboot : env.bootstrapFault = none) (hnav : env.navFault = none)
    (hcred : truthy env.username = false ∨ truthy env.password = false) :
    login_to_pacs env =
      { outcome := Except.ok credsMissingResult, browserClosed := true } ∧
    credsMissingResult.status = "failed" ∧ credsMissingResult.data = [] ∧
    credsMissingResult.message ≠ "" := by
  refine ⟨?_, rfl, rfl, by decide⟩
  unfold login_to_pacs runBody
  rw [hboot, hnav]
  rcases hcred with hc | hc <;> simp [hc]

/-- C10 witness: the baseline run with `j_username` unset returns the
missing-credentials failure. -/
theorem c10_missing_credentials_witness :
    envNoCreds.bootstrapFault = none ∧ envNoCreds.navFault = none ∧
    (truthy envNoCreds.username = false ∨ truthy envNoCreds.password = false) ∧
    (login_to_pacs envNoCreds =
        { outcome := Except.ok credsMissingResult, browserClosed := true } ∧
      credsMissingResult.status = "failed" ∧ credsMissingResult.data = [] ∧
      credsMissingResult.message ≠ "") :=
  ⟨rfl, rfl, Or.inl rfl,
    c10_missing_credentials envNoCreds rfl rfl (Or.inl rfl)⟩

/-! ## C2 — credential clearing in the service layer -/

/-- The service layer does clear both variables whenever the automation call
returns (success or failure result alike). -/
lemma run_scraping_task_clears_on_return (user pw : String) (r : ExtractionResult) :
    (run_scraping_task user pw (CallOutcome.returns r)).1 =
      { j_username := none, j_password := none } :=
  rfl

/-- The synchronous endpoint likewise clears on a returned result. -/
lemma scrape_data_sync_clears_on_return (user pw : String) (r : ExtractionResult) :
    (scrape_data_sync user pw (CallOutcome.returns r)).1 =
      { j_username := none, j_password := none } :=
  rfl

/-- C2 (code bug): the claim — after a run completes, whether the automation
returns or raises, neither credential value remains in the process-wide
environment variables — is the evident intent (`os.environ.pop` right after
the call, in both endpoints), but both `pop` calls sit inside the `try:`
before the handler: when `login_to_pacs` raises (possible, e.g. a browser
launch failure before its own `try:`), the handler stores a failure record
and returns with `j_username` and `j_password` still set. -/
theorem c2_credentials_not_cleared_on_raise :
    (login_to_pacs envBootFail).outcome = Except.error "browser launch raised" ∧
    (run_scraping_task "operator" "secret" (outcomeOf (login_to_pacs envBootFail))).1 =
      { j_username := some "operator", j_password := some "secret" } ∧
    (run_scraping_task "operator" "secret" (outcomeOf (login_to_pacs envBootFail))).2 =
      { status := "failed", data := [], message := "browser launch raised",
        headers := none, errorScreenshot := none } ∧
    (scrape_data_sync "operator" "secret" (outcomeOf (login_to_pacs envBootFail))).1 =
      { j_username := some "operator", j_password := some "secret" } :=
  ⟨rfl, rfl, rfl, rfl⟩
